import Mathlib

/-!
Verification of the constant-sum Uniswap V4 curve contract (`src/lib.rs`).

The contract `ConstantSumCurve` stores a single version string, and exposes
two pricing operations that trade 1:1 (constant-sum policy), each emitting
one event and returning `Ok`.  We embed U256 amounts as `Nat` (values are
below `2^256`; no arithmetic is performed on them by the contract, so no
wrapping can occur) and 20-byte addresses (`Currency`) as `Nat`.
-/

/-- U256 amounts, embedded as natural numbers (valid values are `< 2^256`). -/
abbrev U256 := Nat

/-- The currency data type: a 20-byte address (`pub type Currency = Address`),
embedded as a natural number (valid values are `< 2^160`); `0` is the zero
address. -/
abbrev Currency := Nat

/-- `error CurveCustomError()` — a custom error carrying no payload. -/
structure CurveCustomError where
  deriving DecidableEq

/-- The contract's error enum: `enum Error { CustomError(CurveCustomError) }`. -/
inductive Error where
  | CustomError : CurveCustomError → Error
  deriving DecidableEq

/-- Events the contract can emit:
`AmountInCalculated(uint256 amount_out, address input, address output, bool zero_for_one)`
and
`AmountOutCalculated(uint256 amount_in, address input, address output, bool zero_for_one)`,
fields in declaration order. -/
inductive Event where
  | AmountInCalculated (amount_out : U256) (input : Currency) (output : Currency)
      (zero_for_one : Bool) : Event
  | AmountOutCalculated (amount_in : U256) (input : Currency) (output : Currency)
      (zero_for_one : Bool) : Event
  deriving DecidableEq

/-- Contract storage: `struct ConstantSumCurve { version: StorageString }`. -/
structure ConstantSumCurve where
  version : String
  deriving DecidableEq

/-- `constructor(&mut self, version: String)` — stores the version string. -/
def ConstantSumCurve.constructor (version : String) : ConstantSumCurve :=
  { version := version }

/-- `version(&self) -> String` — returns the stored version string. -/
def ConstantSumCurve.getVersion (self : ConstantSumCurve) : String :=
  self.version

/-- `calculate_amount_in`: in a constant-sum curve tokens trade exactly 1:1,
so `amount_in = amount_out`; the currency and direction arguments are unused
(`_input`, `_output`, `_zero_for_one` in the source). -/
def ConstantSumCurve.calculate_amount_in (_self : ConstantSumCurve)
    (amount_out : U256) (_input : Currency) (_output : Currency)
    (_zero_for_one : Bool) : U256 :=
  amount_out

/-- `calculate_amount_out`: in a constant-sum curve tokens trade exactly 1:1,
so `amount_out = amount_in`; the currency and direction arguments are unused. -/
def ConstantSumCurve.calculate_amount_out (_self : ConstantSumCurve)
    (amount_in : U256) (_input : Currency) (_output : Currency)
    (_zero_for_one : Bool) : U256 :=
  amount_in

instance {ε α : Type} [DecidableEq ε] [DecidableEq α] : DecidableEq (Except ε α) :=
  fun a b =>
    match a, b with
    | Except.error x, Except.error y =>
        if h : x = y then isTrue (by rw [h]) else isFalse (by simp [h])
    | Except.error _, Except.ok _ => isFalse (by simp)
    | Except.ok _, Except.error _ => isFalse (by simp)
    | Except.ok x, Except.ok y =>
        if h : x = y then isTrue (by rw [h]) else isFalse (by simp [h])

/-- Result of one external call: the returned value, the post-state, and the
list of events appended to the host's log by the call, in emission order. -/
structure CallResult where
  ret : Except Error U256
  state : ConstantSumCurve
  events : List Event
  deriving DecidableEq

/-- `get_amount_in_for_exact_output(&mut self, amount_out, input, output,
zero_for_one)`: computes `amount_in` via `calculate_amount_in`, emits
`AmountInCalculated { amount_out, input, output, zero_for_one }`, and returns
`Ok(amount_in)`.  The state is not written. -/
def ConstantSumCurve.get_amount_in_for_exact_output (self : ConstantSumCurve)
    (amount_out : U256) (input : Currency) (output : Currency)
    (zero_for_one : Bool) : CallResult :=
  let amount_in := self.calculate_amount_in amount_out input output zero_for_one
  { ret := Except.ok amount_in
    state := self
    events := [Event.AmountInCalculated amount_out input output zero_for_one] }

/-- `get_amount_out_from_exact_input(&mut self, amount_in, input, output,
zero_for_one)`: computes `amount_out` via `calculate_amount_out`, emits
`AmountOutCalculated { amount_in, input, output, zero_for_one }`, and returns
`Ok(amount_out)`.  The state is not written. -/
def ConstantSumCurve.get_amount_out_from_exact_input (self : ConstantSumCurve)
    (amount_in : U256) (input : Currency) (output : Currency)
    (zero_for_one : Bool) : CallResult :=
  let amount_out := self.calculate_amount_out amount_in input output zero_for_one
  { ret := Except.ok amount_out
    state := self
    events := [Event.AmountOutCalculated amount_in input output zero_for_one] }

/-- One external pricing call (used to talk about arbitrary call sequences). -/
inductive Call where
  | amountIn (amount_out : U256) (input : Currency) (output : Currency)
      (zero_for_one : Bool) : Call
  | amountOut (amount_in : U256) (input : Currency) (output : Currency)
      (zero_for_one : Bool) : Call
  deriving DecidableEq

/-- The state after executing one pricing call. -/
def ConstantSumCurve.step (self : ConstantSumCurve) (c : Call) : ConstantSumCurve :=
  match c with
  | Call.amountIn a i o z => (self.get_amount_in_for_exact_output a i o z).state
  | Call.amountOut a i o z => (self.get_amount_out_from_exact_input a i o z).state

/-- The state after executing a sequence of pricing calls in order. -/
def ConstantSumCurve.run (self : ConstantSumCurve) (cs : List Call) : ConstantSumCurve :=
  cs.foldl ConstantSumCurve.step self

theorem ConstantSumCurve.step_id (self : ConstantSumCurve) (c : Call) :
    self.step c = self := by
  cases c <;> rfl

theorem ConstantSumCurve.run_id (self : ConstantSumCurve) (cs : List Call) :
    self.run cs = self := by
  induction cs generalizing self with
  | nil => rfl
  | cons c cs ih =>
      show (self.step c).run cs = self
      rw [ConstantSumCurve.step_id]
      exact ih self

/-- A sample version string, used to instantiate witnesses. -/
def sampleVersion : String := "1.0.0"

/-- C1: for every amount_out, every pair of currency identifiers, and every
direction flag, `get_amount_in_for_exact_output` returns `Ok(amount_in)` with
`amount_in` equal to `amount_out`. -/
theorem C1_amount_in_equals_amount_out (self : ConstantSumCurve) (amount_out : U256)
    (input output : Currency) (zero_for_one : Bool) :
    (self.get_amount_in_for_exact_output amount_out input output zero_for_one).ret
      = Except.ok amount_out :=
  rfl

/-- C2: for every amount_in, every pair of currency identifiers, and every
direction flag, `get_amount_out_from_exact_input` returns `Ok(amount_out)` with
`amount_out` equal to `amount_in`. -/
theorem C2_amount_out_equals_amount_in (self : ConstantSumCurve) (amount_in : U256)
    (input output : Currency) (zero_for_one : Bool) :
    (self.get_amount_out_from_exact_input amount_in input output zero_for_one).ret
      = Except.ok amount_in :=
  rfl

/-- C3: each call of `get_amount_in_for_exact_output` (resp.
`get_amount_out_from_exact_input`) appends exactly one `AmountInCalculated`
(resp. `AmountOutCalculated`) event record to the event log, with fields
`(amount, input, output, zero_for_one)` in that order matching the call's
parameters; the computed amount returned by the call equals the event's amount
field. -/
theorem C3_one_event_per_call (self : ConstantSumCurve) (a : U256)
    (input output : Currency) (zero_for_one : Bool) :
    (self.get_amount_in_for_exact_output a input output zero_for_one).events
        = [Event.AmountInCalculated a input output zero_for_one]
      ∧ (self.get_amount_out_from_exact_input a input output zero_for_one).events
        = [Event.AmountOutCalculated a input output zero_for_one]
      ∧ (self.get_amount_in_for_exact_output a input output zero_for_one).ret
        = Except.ok a
      ∧ (self.get_amount_out_from_exact_input a input output zero_for_one).ret
        = Except.ok a :=
  ⟨rfl, rfl, rfl, rfl⟩

/-- C4: neither pricing operation ever returns an error — for all arguments the
result is `Ok`, and the `CustomError` branch of `Error` is never produced. -/
theorem C4_never_errors (self : ConstantSumCurve) (a : U256)
    (input output : Currency) (zero_for_one : Bool) :
    (∃ v, (self.get_amount_in_for_exact_output a input output zero_for_one).ret
        = Except.ok v)
      ∧ (∃ v, (self.get_amount_out_from_exact_input a input output zero_for_one).ret
        = Except.ok v)
      ∧ (∀ e : Error,
          (self.get_amount_in_for_exact_output a input output zero_for_one).ret
            ≠ Except.error e)
      ∧ (∀ e : Error,
          (self.get_amount_out_from_exact_input a input output zero_for_one).ret
            ≠ Except.error e) :=
  ⟨⟨a, rfl⟩, ⟨a, rfl⟩, fun e h => by simp [ConstantSumCurve.get_amount_in_for_exact_output] at h,
    fun e h => by simp [ConstantSumCurve.get_amount_out_from_exact_input] at h⟩

/-- C5: after constructing the engine with version string `v`, `version()`
returns exactly `v`, and the stored version (the whole contract state) is left
unchanged by any number and order of subsequent pricing calls. -/
theorem C5_version_immutable (v : String) (cs : List Call) :
    (ConstantSumCurve.constructor v).getVersion = v
      ∧ ((ConstantSumCurve.constructor v).run cs).getVersion = v
      ∧ (ConstantSumCurve.constructor v).run cs = ConstantSumCurve.constructor v := by
  refine ⟨rfl, ?_, ConstantSumCurve.run_id _ _⟩
  rw [ConstantSumCurve.run_id]
  rfl

/-- C6: round-trip identity — for every amount `x`, currencies `A`, `B`, and
direction `d`, feeding the amount returned by
`get_amount_in_for_exact_output(x, A, B, d)` into
`get_amount_out_from_exact_input(·, B, A, not d)` gives back `x`. -/
theorem C6_round_trip (self : ConstantSumCurve) (x : U256) (A B : Currency)
    (d : Bool) (y : U256)
    (h : (self.get_amount_in_for_exact_output x A B d).ret = Except.ok y) :
    (((self.get_amount_in_for_exact_output x A B d).state).get_amount_out_from_exact_input
        y B A (!d)).ret = Except.ok x := by
  have hy : y = x := by
    simpa [ConstantSumCurve.get_amount_in_for_exact_output] using h.symm
  rw [hy]
  rfl

/-- Witness for C6 at `x = 5`, `A = 1`, `B = 2`, `d = true`. -/
theorem C6_round_trip_witness :
    ((((ConstantSumCurve.constructor sampleVersion).get_amount_in_for_exact_output
        5 1 2 true).state).get_amount_out_from_exact_input 5 2 1 (!true)).ret
      = Except.ok 5 :=
  C6_round_trip (ConstantSumCurve.constructor sampleVersion) 5 1 2 true 5 rfl

/-- C7: the pricing output is a deterministic function of the amount argument
alone — two invocations of the same operation with equal amounts return
identical results even when the currencies, the direction flag, or the stored
version string differ between the runs. -/
theorem C7_output_depends_only_on_amount (s1 s2 : ConstantSumCurve) (a : U256)
    (i1 o1 : Currency) (z1 : Bool) (i2 o2 : Currency) (z2 : Bool) :
    (s1.get_amount_in_for_exact_output a i1 o1 z1).ret
        = (s2.get_amount_in_for_exact_output a i2 o2 z2).ret
      ∧ (s1.get_amount_out_from_exact_input a i1 o1 z1).ret
        = (s2.get_amount_out_from_exact_input a i2 o2 z2).ret :=
  ⟨rfl, rfl⟩

/-- C8: no pricing computation can overflow or wrap — for every amount below
`2^256` (including `0` and the maximum 256-bit value) both operations return
the amount exactly with no error; in particular the amount-in operation maps
`0` to `0`. -/
theorem C8_no_overflow (self : ConstantSumCurve) (a : U256)
    (input output : Currency) (zero_for_one : Bool) (h : a < 2 ^ 256) :
    (self.get_amount_in_for_exact_output a input output zero_for_one).ret
        = Except.ok a
      ∧ (self.get_amount_out_from_exact_input a input output zero_for_one).ret
        = Except.ok a
      ∧ (self.get_amount_in_for_exact_output 0 input output zero_for_one).ret
        = Except.ok 0 :=
  ⟨rfl, rfl, rfl⟩

/-- Witness for C8 at the two boundary amounts `0` and `2^256 - 1`. -/
theorem C8_no_overflow_witness :
    ((ConstantSumCurve.constructor sampleVersion).get_amount_in_for_exact_output
        0 1 2 true).ret = Except.ok 0
      ∧ ((ConstantSumCurve.constructor sampleVersion).get_amount_out_from_exact_input
        (2 ^ 256 - 1) 1 2 false).ret = Except.ok (2 ^ 256 - 1) :=
  ⟨(C8_no_overflow (ConstantSumCurve.constructor sampleVersion) 0 1 2 true
      (by norm_num)).1,
    (C8_no_overflow (ConstantSumCurve.constructor sampleVersion) (2 ^ 256 - 1) 1 2 false
      (by norm_num)).2.1⟩

/-- C9: the two pricing computations are extensionally equal — for every tuple
of arguments both operations return the same `Ok` amount, each being the
identity on the amount argument. -/
theorem C9_operations_extensionally_equal (self : ConstantSumCurve) (a : U256)
    (input output : Currency) (zero_for_one : Bool) :
    (self.get_amount_in_for_exact_output a input output zero_for_one).ret
        = (self.get_amount_out_from_exact_input a input output zero_for_one).ret
      ∧ (self.get_amount_in_for_exact_output a input output zero_for_one).ret
        = Except.ok a :=
  ⟨rfl, rfl⟩

/-- C10: no currency-pair validation is performed — both operations succeed
with `Ok` and emit their single event even when input and output are the same
address or either is the zero address. -/
theorem C10_no_pair_validation (self : ConstantSumCurve) (a : U256)
    (c : Currency) (z : Bool) :
    ((self.get_amount_in_for_exact_output a c c z).ret = Except.ok a
        ∧ (self.get_amount_in_for_exact_output a c c z).events.length = 1)
      ∧ ((self.get_amount_out_from_exact_input a c c z).ret = Except.ok a
        ∧ (self.get_amount_out_from_exact_input a c c z).events.length = 1)
      ∧ ((self.get_amount_in_for_exact_output a 0 c z).ret = Except.ok a
        ∧ (self.get_amount_in_for_exact_output a 0 c z).events.length = 1)
      ∧ ((self.get_amount_out_from_exact_input a c 0 z).ret = Except.ok a
        ∧ (self.get_amount_out_from_exact_input a c 0 z).events.length = 1) :=
  ⟨⟨rfl, rfl⟩, ⟨rfl, rfl⟩, ⟨rfl, rfl⟩, ⟨rfl, rfl⟩⟩
